import Mathlib

/-!
Verification of the `services vpc-peerings connect` command
(`src/google-cloud-sdk/lib/surface/services/vpc_peerings/connect.py`).

The command's external collaborators (ambient configuration, project
resolver, peering API client, operation waiter) live outside this file's
repository; they are modelled as oracle functions gathered in `Env`.  The
command body `Run` is a direct shallow embedding of `Connect.Run`, returning
both its outcome and the ordered trace of observable effects (`Event`).
-/

namespace VpcPeeringConnect

/-- An operation handle as returned by the peering API (`op` in
`Connect.Run`); `name` identifies the long-running operation, `done` records
whether it has reached a terminal state. -/
structure Operation where
  name : String
  done : Bool
deriving DecidableEq

/-- Parsed command arguments (`args` in `Connect.Run`): the three required
string flags and the `--async` boolean flag. -/
structure Args where
  network : String
  service : String
  reservedRanges : String
  async : Bool
deriving DecidableEq

/-- Raw command-line input before argparse's required-flag check: each of the
three string flags may be absent; `async` defaults to `false` when the flag
is not given. -/
structure RawArgs where
  network : Option String
  service : Option String
  reservedRanges : Option String
  async : Bool
deriving DecidableEq

/-- The failures the command can surface: a missing required flag (argparse),
no active project in the ambient configuration
(`properties.VALUES.core.project.Get(required=True)`), a failed project
lookup (`_GetProjectNumber`), or a rejected peering request
(`peering.PeerApiCall`). -/
inductive CmdError
  | missingRequired (flag : String)
  | noProjectSet
  | projectLookupFailed (msg : String)
  | peerCallFailed (msg : String)
deriving DecidableEq

/-- Observable effects of one invocation, in order: the project-number
lookup call, the peering-connect request, a printed status line, the call
polling an operation to a terminal state (`peering.WaitOperation`), and the
printing of a terminal operation (`services_util.PrintOperation`). -/
inductive Event
  | projectLookup (projectId : String)
  | peerRequest (projectNumber : Nat) (service network : String)
      (ranges : List String)
  | printStatus (msg : String)
  | waitOp (opName : String)
  | printOperation (op : Operation)
deriving DecidableEq

/-- Whether an event observes the operation's status after the request was
issued: either the polling call or the printing of a polled result. -/
def Event.isStatusCheck : Event → Bool
  | .waitOp _ => true
  | .printOperation _ => true
  | _ => false

/-- Whether an event is the peering-connect request. -/
def Event.isPeerRequest : Event → Bool
  | .peerRequest _ _ _ _ => true
  | _ => false

/-- Whether an event is the project-number lookup call. -/
def Event.isProjectLookup : Event → Bool
  | .projectLookup _ => true
  | _ => false

/-- The command's external collaborators, as oracles.  `coreProject` models
`properties.VALUES.core.project.Get` (the ambient configuration's active
project, `none` when unset); `getProjectNumber` models `_GetProjectNumber`
(project lookup via `projects_api.Get`, returning the numeric project
number or an error); `peerApiCall` models `peering.PeerApiCall`;
`waitOperation` models `peering.WaitOperation`, which polls the named
operation until it reaches a terminal state and returns that terminal
operation. -/
structure Env where
  coreProject : Option String
  getProjectNumber : String → Except String Nat
  peerApiCall : Nat → String → String → List String → Except String Operation
  waitOperation : String → Operation

/-- Python `str.split(',')` on the underlying character list: splits at
every comma, keeping empty pieces; the empty list yields one empty piece. -/
def splitOnComma : List Char → List (List Char)
  | [] => [[]]
  | c :: cs =>
    if c = ',' then [] :: splitOnComma cs
    else
      match splitOnComma cs with
      | [] => [[c]]
      | h :: t => (c :: h) :: t

/-- Embedding of `args.reserved_ranges.split(',')`. -/
def pySplit (s : String) : List String :=
  (splitOnComma s.data).map String.mk

/-- `OP_BASE_CMD` from the source. -/
def OP_BASE_CMD : String := "gcloud alpha services vpc-peerings operations "

/-- `OP_WAIT_CMD.format(opName)`: the ready-to-run wait command for a named
operation. -/
def OP_WAIT_CMD (opName : String) : String := OP_BASE_CMD ++ "wait " ++ opName

/-- The status line printed on the async path, with the wait command
substituted at the end (the `{0}` placeholder of the format string). -/
def asyncStatusMsg (cmd : String) : String :=
  "Asynchronous operation is in progress... Use the following command to wait for its completion:\n " ++ cmd

/-- `Connect.Run`: resolve the active project, look up its project number,
split the reserved ranges on commas, issue the peering request, then either
print the async status line and return, or poll the operation to a terminal
state and print it.  Returns the outcome and the ordered effect trace. -/
def Run (env : Env) (args : Args) : Except CmdError Unit × List Event :=
  match env.coreProject with
  | none => (.error .noProjectSet, [])
  | some project =>
    match env.getProjectNumber project with
    | .error e => (.error (.projectLookupFailed e), [.projectLookup project])
    | .ok projectNumber =>
      let reservedRanges := pySplit args.reservedRanges
      match env.peerApiCall projectNumber args.service args.network
          reservedRanges with
      | .error e =>
          (.error (.peerCallFailed e),
           [.projectLookup project,
            .peerRequest projectNumber args.service args.network
              reservedRanges])
      | .ok op =>
        if args.async then
          (.ok (),
           [.projectLookup project,
            .peerRequest projectNumber args.service args.network
              reservedRanges,
            .printStatus (asyncStatusMsg (OP_WAIT_CMD op.name))])
        else
          (.ok (),
           [.projectLookup project,
            .peerRequest projectNumber args.service args.network
              reservedRanges,
            .waitOp op.name,
            .printOperation (env.waitOperation op.name)])

/-- `Connect.Args` together with argparse's enforcement of `required=True`
on `--network`, `--service` and `--reserved-ranges`. -/
def parseArgs (raw : RawArgs) : Except CmdError Args :=
  match raw.network with
  | none => .error (.missingRequired "--network")
  | some network =>
    match raw.service with
    | none => .error (.missingRequired "--service")
    | some service =>
      match raw.reservedRanges with
      | none => .error (.missingRequired "--reserved-ranges")
      | some reservedRanges =>
        .ok ⟨network, service, reservedRanges, raw.async⟩

/-- A full invocation: argument parsing, then `Run`.  A parse failure
produces no effects at all. -/
def invoke (env : Env) (raw : RawArgs) : Except CmdError Unit × List Event :=
  match parseArgs raw with
  | .error e => (.error e, [])
  | .ok args => Run env args

/-- A concrete environment used to exercise the theorems on closed inputs. -/
def testEnv : Env where
  coreProject := some "my-project"
  getProjectNumber := fun _ => .ok 123
  peerApiCall := fun _ _ _ _ => .ok ⟨"operations/pcr-1234", false⟩
  waitOperation := fun nm => ⟨nm, true⟩

/-- Concrete parsed arguments (async path) used to exercise the theorems. -/
def testArgs : Args :=
  ⟨"my-network", "your-service", "10.197.0.0/20,10.198.0.0/20", true⟩

/-- Concrete parsed arguments (sync path) used to exercise the theorems. -/
def testArgsSync : Args :=
  ⟨"my-network", "your-service", "10.197.0.0/20,10.198.0.0/20", false⟩

/-- Concrete parsed arguments whose reserved-ranges string has no comma. -/
def testArgsOneRange : Args :=
  ⟨"my-network", "your-service", "10.197.0.0/20", true⟩

/-- A concrete environment with no active project configured. -/
def testEnvNoProject : Env where
  coreProject := none
  getProjectNumber := fun _ => .ok 123
  peerApiCall := fun _ _ _ _ => .ok ⟨"operations/pcr-1234", false⟩
  waitOperation := fun nm => ⟨nm, true⟩

/-- A concrete environment whose project-number lookup fails. -/
def testEnvLookupFail : Env where
  coreProject := some "no-such-project"
  getProjectNumber := fun _ => .error "project not found"
  peerApiCall := fun _ _ _ _ => .ok ⟨"operations/pcr-1234", false⟩
  waitOperation := fun nm => ⟨nm, true⟩

/-- Concrete raw input with the required `--network` flag omitted. -/
def rawMissingNetwork : RawArgs :=
  ⟨none, some "your-service", some "10.197.0.0/20,10.198.0.0/20", false⟩

/-- Concrete raw input whose `--reserved-ranges` value is the empty string. -/
def rawEmptyRanges : RawArgs :=
  ⟨some "my-network", some "your-service", some "", false⟩

/-! ## Helper lemmas -/

lemma strAppendAssoc (a b c : String) : a ++ b ++ c = a ++ (b ++ c) := by
  apply String.ext
  simp [String.data_append, List.append_assoc]

lemma splitOnComma_of_no_comma (l : List Char) (h : ',' ∉ l) :
    splitOnComma l = [l] := by
  induction l with
  | nil => rfl
  | cons c cs ih =>
    have hc : ¬c = ',' := by
      intro e
      exact h (e ▸ List.mem_cons_self c cs)
    have hcs : ',' ∉ cs := fun m => h (List.mem_cons_of_mem _ m)
    simp [splitOnComma, hc, ih hcs]

lemma pySplit_of_no_comma (s : String) (h : ',' ∉ s.data) :
    pySplit s = [s] := by
  cases s with
  | mk data => simp [pySplit, splitOnComma_of_no_comma data h]

lemma mem_peerRequest_shape (env : Env) (args : Args)
    (n : Nat) (s nw : String) (r : List String)
    (h : Event.peerRequest n s nw r ∈ (Run env args).2) :
    s = args.service ∧ nw = args.network ∧ r = pySplit args.reservedRanges := by
  rcases hcp : env.coreProject with _ | p
  · simp [Run, hcp] at h
  · rcases hnum : env.getProjectNumber p with e | num
    · simp [Run, hcp, hnum] at h
    · rcases hop : env.peerApiCall num args.service args.network
        (pySplit args.reservedRanges) with e | op
      · simp [Run, hcp, hnum, hop] at h
        exact ⟨h.2.1, h.2.2.1, h.2.2.2⟩
      · rcases ha : args.async
        · simp [Run, hcp, hnum, hop, ha] at h
          exact ⟨h.2.1, h.2.2.1, h.2.2.2⟩
        · simp [Run, hcp, hnum, hop, ha] at h
          exact ⟨h.2.1, h.2.2.1, h.2.2.2⟩

lemma run_ok_shape (env : Env) (args : Args)
    (h : (Run env args).1 = Except.ok ()) :
    ∃ p n op,
      env.coreProject = some p ∧
      env.getProjectNumber p = Except.ok n ∧
      env.peerApiCall n args.service args.network
        (pySplit args.reservedRanges) = Except.ok op ∧
      ((args.async = true ∧ (Run env args).2 =
          [Event.projectLookup p,
           Event.peerRequest n args.service args.network
             (pySplit args.reservedRanges),
           Event.printStatus (asyncStatusMsg (OP_WAIT_CMD op.name))]) ∨
       (args.async = false ∧ (Run env args).2 =
          [Event.projectLookup p,
           Event.peerRequest n args.service args.network
             (pySplit args.reservedRanges),
           Event.waitOp op.name,
           Event.printOperation (env.waitOperation op.name)])) := by
  rcases hcp : env.coreProject with _ | p
  · simp [Run, hcp] at h
  · rcases hnum : env.getProjectNumber p with e | num
    · simp [Run, hcp, hnum] at h
    · rcases hop : env.peerApiCall num args.service args.network
        (pySplit args.reservedRanges) with e | op
      · simp [Run, hcp, hnum, hop] at h
      · rcases ha : args.async
        · exact ⟨p, num, op, rfl, hnum, hop,
            Or.inr ⟨rfl, by simp [Run, hcp, hnum, hop, ha]⟩⟩
        · exact ⟨p, num, op, rfl, hnum, hop,
            Or.inl ⟨rfl, by simp [Run, hcp, hnum, hop, ha]⟩⟩

/-! ## Claims -/

/-- C1: every range sequence passed to the peering-connect request is the
result of splitting the reserved-ranges string on `,` with no trimming,
deduplication or CIDR validation; in particular
`"10.197.0.0/20,10.198.0.0/20"` yields exactly
`["10.197.0.0/20", "10.198.0.0/20"]`. -/
theorem connect_splits_reserved_ranges (env : Env) (args : Args)
    (n : Nat) (s nw : String) (r : List String)
    (h : Event.peerRequest n s nw r ∈ (Run env args).2) :
    r = pySplit args.reservedRanges ∧
    pySplit "10.197.0.0/20,10.198.0.0/20" =
      ["10.197.0.0/20", "10.198.0.0/20"] :=
  ⟨(mem_peerRequest_shape env args n s nw r h).2.2, by decide⟩

theorem connect_splits_reserved_ranges_witness :
    (["10.197.0.0/20", "10.198.0.0/20"] : List String) =
      pySplit testArgs.reservedRanges ∧
    pySplit "10.197.0.0/20,10.198.0.0/20" =
      ["10.197.0.0/20", "10.198.0.0/20"] :=
  connect_splits_reserved_ranges testEnv testArgs 123 "your-service"
    "my-network" ["10.197.0.0/20", "10.198.0.0/20"] (by decide)

/-- C2: on the async path, once the peering request returns an operation, the
command's effects end with a printed status message whose tail is the
ready-to-run wait command ending in the operation's name, and no
operation-polling call or operation printing ever occurs. -/
theorem connect_async_prints_wait_cmd (env : Env) (args : Args)
    (p : String) (n : Nat) (op : Operation)
    (h1 : env.coreProject = some p)
    (h2 : env.getProjectNumber p = Except.ok n)
    (h3 : env.peerApiCall n args.service args.network
      (pySplit args.reservedRanges) = Except.ok op)
    (ha : args.async = true) :
    Run env args = (Except.ok (),
      [Event.projectLookup p,
       Event.peerRequest n args.service args.network
         (pySplit args.reservedRanges),
       Event.printStatus (asyncStatusMsg (OP_WAIT_CMD op.name))]) ∧
    asyncStatusMsg (OP_WAIT_CMD op.name) =
      asyncStatusMsg (OP_BASE_CMD ++ "wait ") ++ op.name ∧
    (Run env args).2.filter Event.isStatusCheck = [] := by
  have hr : Run env args = (Except.ok (),
      [Event.projectLookup p,
       Event.peerRequest n args.service args.network
         (pySplit args.reservedRanges),
       Event.printStatus (asyncStatusMsg (OP_WAIT_CMD op.name))]) := by
    simp [Run, h1, h2, h3, ha]
  refine ⟨hr, ?_, ?_⟩
  · simp [asyncStatusMsg, OP_WAIT_CMD, strAppendAssoc]
  · rw [hr]
    rfl

theorem connect_async_prints_wait_cmd_witness :
    Run testEnv testArgs = (Except.ok (),
      [Event.projectLookup "my-project",
       Event.peerRequest 123 "your-service" "my-network"
         (pySplit "10.197.0.0/20,10.198.0.0/20"),
       Event.printStatus
         (asyncStatusMsg (OP_WAIT_CMD "operations/pcr-1234"))]) ∧
    asyncStatusMsg (OP_WAIT_CMD "operations/pcr-1234") =
      asyncStatusMsg (OP_BASE_CMD ++ "wait ") ++ "operations/pcr-1234" ∧
    (Run testEnv testArgs).2.filter Event.isStatusCheck = [] :=
  connect_async_prints_wait_cmd testEnv testArgs "my-project" 123
    ⟨"operations/pcr-1234", false⟩ rfl rfl rfl rfl

/-- C3: on the sync path, once the peering request returns an operation, the
command polls that operation by name until it is terminal and then prints the
terminal operation result. -/
theorem connect_sync_waits_and_prints (env : Env) (args : Args)
    (p : String) (n : Nat) (op : Operation)
    (h1 : env.coreProject = some p)
    (h2 : env.getProjectNumber p = Except.ok n)
    (h3 : env.peerApiCall n args.service args.network
      (pySplit args.reservedRanges) = Except.ok op)
    (ha : args.async = false)
    (hterm : ∀ nm, (env.waitOperation nm).done = true) :
    Run env args = (Except.ok (),
      [Event.projectLookup p,
       Event.peerRequest n args.service args.network
         (pySplit args.reservedRanges),
       Event.waitOp op.name,
       Event.printOperation (env.waitOperation op.name)]) ∧
    (env.waitOperation op.name).done = true :=
  ⟨by simp [Run, h1, h2, h3, ha], hterm op.name⟩

theorem connect_sync_waits_and_prints_witness :
    Run testEnv testArgsSync = (Except.ok (),
      [Event.projectLookup "my-project",
       Event.peerRequest 123 "your-service" "my-network"
         (pySplit "10.197.0.0/20,10.198.0.0/20"),
       Event.waitOp "operations/pcr-1234",
       Event.printOperation (testEnv.waitOperation "operations/pcr-1234")]) ∧
    (testEnv.waitOperation "operations/pcr-1234").done = true :=
  connect_sync_waits_and_prints testEnv testArgsSync "my-project" 123
    ⟨"operations/pcr-1234", false⟩ rfl rfl rfl rfl (fun _ => rfl)

/-- C4: when the project-number lookup fails, the command propagates the
error and the peering-connect request is never issued. -/
theorem connect_lookup_failure_no_request (env : Env) (args : Args)
    (p e : String)
    (h1 : env.coreProject = some p)
    (h2 : env.getProjectNumber p = Except.error e) :
    Run env args =
      (Except.error (CmdError.projectLookupFailed e),
       [Event.projectLookup p]) ∧
    (Run env args).2.filter Event.isPeerRequest = [] := by
  have hr : Run env args =
      (Except.error (CmdError.projectLookupFailed e),
       [Event.projectLookup p]) := by
    simp [Run, h1, h2]
  exact ⟨hr, by rw [hr]; rfl⟩

theorem connect_lookup_failure_no_request_witness :
    Run testEnvLookupFail testArgs =
      (Except.error (CmdError.projectLookupFailed "project not found"),
       [Event.projectLookup "no-such-project"]) ∧
    (Run testEnvLookupFail testArgs).2.filter Event.isPeerRequest = [] :=
  connect_lookup_failure_no_request testEnvLookupFail testArgs
    "no-such-project" "project not found" rfl rfl

/-- C5: every successful invocation performs exactly one project-number
lookup on the resolved project and issues exactly one peering-connect
request, carrying the looked-up project number, the service argument, the
network argument and the split range sequence, and its result is an
operation handle. -/
theorem connect_request_once_with_exact_values (env : Env) (args : Args)
    (h : (Run env args).1 = Except.ok ()) :
    ∃ p n op,
      env.coreProject = some p ∧
      env.getProjectNumber p = Except.ok n ∧
      env.peerApiCall n args.service args.network
        (pySplit args.reservedRanges) = Except.ok op ∧
      (Run env args).2.filter Event.isProjectLookup =
        [Event.projectLookup p] ∧
      (Run env args).2.filter Event.isPeerRequest =
        [Event.peerRequest n args.service args.network
          (pySplit args.reservedRanges)] := by
  obtain ⟨p, n, op, hp, hn, hop, htr⟩ := run_ok_shape env args h
  refine ⟨p, n, op, hp, hn, hop, ?_, ?_⟩ <;>
    rcases htr with ⟨_, htr⟩ | ⟨_, htr⟩ <;> rw [htr] <;> rfl

theorem connect_request_once_with_exact_values_witness :
    (Run testEnv testArgs).1 = Except.ok () ∧
    ∃ p n op,
      testEnv.coreProject = some p ∧
      testEnv.getProjectNumber p = Except.ok n ∧
      testEnv.peerApiCall n testArgs.service testArgs.network
        (pySplit testArgs.reservedRanges) = Except.ok op ∧
      (Run testEnv testArgs).2.filter Event.isProjectLookup =
        [Event.projectLookup p] ∧
      (Run testEnv testArgs).2.filter Event.isPeerRequest =
        [Event.peerRequest n testArgs.service testArgs.network
          (pySplit testArgs.reservedRanges)] :=
  ⟨rfl, connect_request_once_with_exact_values testEnv testArgs rfl⟩

/-- C6: when no active project is set in the ambient configuration, the
command fails with a configuration error before the project-number lookup
and before the peering request: the effect trace is empty. -/
theorem connect_no_project_config_error (env : Env) (args : Args)
    (h : env.coreProject = none) :
    Run env args = (Except.error CmdError.noProjectSet, []) := by
  simp [Run, h]

theorem connect_no_project_config_error_witness :
    Run testEnvNoProject testArgs =
      (Except.error CmdError.noProjectSet, []) :=
  connect_no_project_config_error testEnvNoProject testArgs rfl

/-- C7: omitting any of the three required flags makes argument validation
fail before any network call: the invocation reports a missing required flag
and produces an empty effect trace. -/
theorem connect_missing_flag_fails_before_network (env : Env)
    (raw : RawArgs)
    (h : raw.network = none ∨ raw.service = none ∨
      raw.reservedRanges = none) :
    ∃ flag, invoke env raw =
      (Except.error (CmdError.missingRequired flag), []) := by
  rcases h with h | h | h
  · exact ⟨"--network", by simp [invoke, parseArgs, h]⟩
  · rcases hn : raw.network with _ | v
    · exact ⟨"--network", by simp [invoke, parseArgs, hn]⟩
    · exact ⟨"--service", by simp [invoke, parseArgs, hn, h]⟩
  · rcases hn : raw.network with _ | v
    · exact ⟨"--network", by simp [invoke, parseArgs, hn]⟩
    · rcases hs : raw.service with _ | w
      · exact ⟨"--service", by simp [invoke, parseArgs, hn, hs]⟩
      · exact ⟨"--reserved-ranges", by simp [invoke, parseArgs, hn, hs, h]⟩

theorem connect_missing_flag_fails_before_network_witness :
    rawMissingNetwork.network = none ∧
    ∃ flag, invoke testEnv rawMissingNetwork =
      (Except.error (CmdError.missingRequired flag), []) :=
  ⟨rfl, connect_missing_flag_fails_before_network testEnv rawMissingNetwork
    (Or.inl rfl)⟩

/-- C8: on the async path the command never checks the operation's status
after issuing the request: the effect trace contains no polling call and no
operation printing, whatever the oracles return. -/
theorem connect_async_never_checks_status (env : Env) (args : Args)
    (ha : args.async = true) :
    (Run env args).2.filter Event.isStatusCheck = [] := by
  rcases hcp : env.coreProject with _ | p
  · simp [Run, hcp]
  · rcases hnum : env.getProjectNumber p with e | num
    · simp [Run, hcp, hnum, Event.isStatusCheck]
    · rcases hop : env.peerApiCall num args.service args.network
        (pySplit args.reservedRanges) with e | op
      · simp [Run, hcp, hnum, hop, Event.isStatusCheck]
      · simp [Run, hcp, hnum, hop, ha, Event.isStatusCheck]

theorem connect_async_never_checks_status_witness :
    (Run testEnv testArgs).2.filter Event.isStatusCheck = [] :=
  connect_async_never_checks_status testEnv testArgs rfl

/-- C9: when the reserved-ranges string contains no comma, the range
sequence passed to the peering request is the one-element sequence holding
the original string. -/
theorem connect_no_comma_single_range (env : Env) (args : Args)
    (n : Nat) (s nw : String) (r : List String)
    (hc : ',' ∉ args.reservedRanges.data)
    (h : Event.peerRequest n s nw r ∈ (Run env args).2) :
    r = [args.reservedRanges] := by
  rw [(mem_peerRequest_shape env args n s nw r h).2.2]
  exact pySplit_of_no_comma args.reservedRanges hc

theorem connect_no_comma_single_range_witness :
    (["10.197.0.0/20"] : List String) = [testArgsOneRange.reservedRanges] :=
  connect_no_comma_single_range testEnv testArgsOneRange 123 "your-service"
    "my-network" ["10.197.0.0/20"] (by decide) (by decide)

/-- C10: an empty reserved-ranges string is not rejected locally: argument
parsing accepts it, the split yields the one-element sequence holding the
empty string, and that sequence is passed to the peering-connect request. -/
theorem connect_empty_ranges_passed_through :
    parseArgs rawEmptyRanges =
      Except.ok ⟨"my-network", "your-service", "", false⟩ ∧
    pySplit "" = [""] ∧
    Event.peerRequest 123 "your-service" "my-network" [""] ∈
      (invoke testEnv rawEmptyRanges).2 :=
  ⟨rfl, rfl, by decide⟩

end VpcPeeringConnect
